import Mathlib

/-!
Shallow embedding of the check-evaluation engine of the healthcard
repository (Google Ads side), translated from:
  src/google/checks/search_checks.py
  src/google/checks/universal_checks.py
  src/google/checks/pmax_checks.py
  src/google/utils/data_processing.py
  src/google/components/ui_components.py
  src/google/config/constants.py

Python floats are modelled as exact rationals, Python dict-rows as
association lists of named fields, and a raised exception as the
`Except.error` branch carrying the exception's string.  Each check's
intermediate quantities (counts, percentages, detail tables) are split
into named definitions so that theorems can speak about them directly;
the check functions assemble exactly the source's result dictionaries
from these parts.
-/

namespace HealthCard

/-- The closed status enum of a check result:
pass / warning / fail / info / error. -/
inductive Status where
  | pass
  | warning
  | fail
  | info
  | error
deriving DecidableEq, Repr

/-- A scalar value stored in one field of a detail row
(string, integer, float, or absent). -/
inductive Field where
  | s (v : String)
  | i (v : Int)
  | q (v : Rat)
  | null
deriving DecidableEq, Repr

/-- One detail-table row: an ordered mapping of field names to values,
mirroring the Python dicts that populate each pd.DataFrame. -/
abbrev Row := List (String × Field)

/-- The result dictionary every check function returns.  `threshold` is
`none` for returns that omit the "threshold" key; `issues` is the extra
table only check_ad_copy_quality emits; `name` is stamped by the runner. -/
structure CheckResult where
  status : Status
  score : Option Rat
  message : String
  threshold : Option String := none
  details : List Row := []
  issues : List Row := []
  name : Option String := none
deriving DecidableEq, Repr

/-! ### String helpers (kernel-computable models of the Python string
operations the checks use) -/

/-- Lower-case a string character by character (Python's str.lower for
the ASCII names appearing in this data). -/
def lowerStr (s : String) : String :=
  ⟨s.data.map Char.toLower⟩

/-- Whether the first list is a prefix of the second. -/
def isPrefixChars : List Char → List Char → Bool
  | [], _ => true
  | _ :: _, [] => false
  | a :: as, b :: bs => a == b && isPrefixChars as bs

/-- Whether `sub` occurs as a contiguous run inside the second list. -/
def containsChars (sub : List Char) : List Char → Bool
  | [] => sub.isEmpty
  | c :: cs => isPrefixChars sub (c :: cs) || containsChars sub cs

/-- Substring test: Python's `sub in s`. -/
def containsStr (s sub : String) : Bool :=
  containsChars sub.data s.data

/-- An ASCII whitespace character (the kinds Python's str.strip removes
from this data). -/
def isWhite (c : Char) : Bool :=
  c == ' ' || c == '\t' || c == '\n' || c == '\r'

/-- Strip leading and trailing whitespace (Python's str.strip). -/
def trimStr (s : String) : String :=
  ⟨((s.data.dropWhile isWhite).reverse.dropWhile isWhite).reverse⟩

/-- Join a list of strings with a separator, as Python's sep.join. -/
def joinSep (sep : String) : List String → String
  | [] => ""
  | [x] => x
  | x :: y :: xs => x ++ sep ++ joinSep sep (y :: xs)

/-- Round x * 10^prec to the nearest integer, ties to even — the decimal
rounding Python's fixed-point format applies to values that are exactly
representable at the requested precision. -/
def decRound (prec : Nat) (x : Rat) : Int :=
  let y : Rat := x * (10 : Rat) ^ prec
  let fl : Int := ⌊y⌋
  let fr : Rat := y - fl
  if fr > 1/2 then fl + 1
  else if fr < 1/2 then fl
  else if fl % 2 = 0 then fl else fl + 1

/-- Left-pad a digit string with zeros to the given width. -/
def padZeros (s : String) (n : Nat) : String :=
  String.mk (List.replicate (n - s.length) '0') ++ s

/-- Render an already-rounded scaled integer n as a decimal string with
`prec` fractional digits. -/
def renderFixed (prec : Nat) (n : Int) : String :=
  let sign := if n < 0 then "-" else ""
  let m := n.natAbs
  let base := 10 ^ prec
  if prec = 0 then sign ++ toString m
  else sign ++ toString (m / base) ++ "." ++ padZeros (toString (m % base)) prec

/-- Fixed-point decimal rendering of a rational, modelling Python's
format spec ".precf" (e.g. fmtFixed 2 (19/2) = "9.50"). -/
def fmtFixed (prec : Nat) (x : Rat) : String :=
  renderFixed prec (decRound prec x)

/-! ### Threshold constants — src/google/config/constants.py -/

def SPEND_SPLIT_THRESHOLDS_EXACT : Rat := 70/100
def SPEND_SPLIT_THRESHOLDS_PHRASE : Rat := 20/100
def SPEND_SPLIT_THRESHOLDS_BROAD : Rat := 10/100
def SPEND_SPLIT_TOLERANCE : Rat := 5/100
def LIMITED_BUDGET_THRESHOLD : Rat := 10/100
def QUALITY_SCORE_THRESHOLDS_brand : Rat := 9
def QUALITY_SCORE_THRESHOLDS_non_brand : Rat := 7
def QUALITY_SCORE_THRESHOLDS_competitor : Rat := 5
def PMAX_SPEND_SPLIT_SHOPPING : Rat := 80/100
def PMAX_SPEND_SPLIT_VIDEO : Rat := 10/100
def PMAX_SPEND_TOLERANCE : Rat := 10/100
def AD_GROUP_TYPE_KEYWORDS_brand : List String := ["brand", "branded"]
def AD_GROUP_TYPE_KEYWORDS_competitor : List String := ["competitor", "competitive", "comp"]

/-! ### Check 1: check_spend_split — search_checks.py lines 19-101 -/

/-- One keyword_view row as consumed by check_spend_split: the keyword
match type name and metrics.cost_micros. -/
structure KeywordSpendRow where
  matchType : String
  costMicros : Int
deriving DecidableEq, Repr

/-- spend of one row: row.metrics.cost_micros / 1_000_000. -/
def spendOf (r : KeywordSpendRow) : Rat :=
  (r.costMicros : Rat) / 1000000

/-- Aggregated spend for one match type
(spend_by_match_type[t] in the source's loop). -/
def spendByType (rows : List KeywordSpendRow) (t : String) : Rat :=
  ((rows.filter (fun r => r.matchType == t)).map spendOf).sum

/-- total_spend accumulated over all rows. -/
def totalSpend (rows : List KeywordSpendRow) : Rat :=
  (rows.map spendOf).sum

/-- exact_pct: the exact-match share of the spend. -/
def exactPct (rows : List KeywordSpendRow) : Rat :=
  spendByType rows "EXACT" / totalSpend rows

/-- phrase_pct. -/
def phrasePct (rows : List KeywordSpendRow) : Rat :=
  spendByType rows "PHRASE" / totalSpend rows

/-- broad_pct. -/
def broadPct (rows : List KeywordSpendRow) : Rat :=
  spendByType rows "BROAD" / totalSpend rows

/-- exact_ok: the exact share clears threshold minus tolerance. -/
def ssExactOk (rows : List KeywordSpendRow) : Prop :=
  SPEND_SPLIT_THRESHOLDS_EXACT - SPEND_SPLIT_TOLERANCE ≤ exactPct rows

instance (rows : List KeywordSpendRow) : Decidable (ssExactOk rows) := by
  unfold ssExactOk; infer_instance

/-- phrase_ok: the phrase share is within twice the tolerance of 20%. -/
def ssPhraseOk (rows : List KeywordSpendRow) : Prop :=
  |phrasePct rows - SPEND_SPLIT_THRESHOLDS_PHRASE| ≤ SPEND_SPLIT_TOLERANCE * 2

instance (rows : List KeywordSpendRow) : Decidable (ssPhraseOk rows) := by
  unfold ssPhraseOk; infer_instance

/-- broad_ok: the broad share is within twice the tolerance of 10%. -/
def ssBroadOk (rows : List KeywordSpendRow) : Prop :=
  |broadPct rows - SPEND_SPLIT_THRESHOLDS_BROAD| ≤ SPEND_SPLIT_TOLERANCE * 2

instance (rows : List KeywordSpendRow) : Decidable (ssBroadOk rows) := by
  unfold ssBroadOk; infer_instance

/-- score = min(deviation * 2, 100) where deviation = |exact_pct*100 - 70|. -/
def ssScore (rows : List KeywordSpendRow) : Rat :=
  min (|exactPct rows * 100 - 70| * 2) 100

/-- The result check_spend_split builds once both emptiness guards have
passed: status is "pass" iff exact_ok alone, phrase_ok / broad_ok only
choose the marks in the details table; score is the amplified deviation
of the exact share from 70, capped at 100. -/
def spendSplitMain (rows : List KeywordSpendRow) : CheckResult :=
  { status := if ssExactOk rows then Status.pass else Status.fail,
    score := some (ssScore rows),
    message := "Exact: " ++ fmtFixed 1 (exactPct rows * 100) ++ "%, Phrase: "
      ++ fmtFixed 1 (phrasePct rows * 100) ++ "%, Broad: "
      ++ fmtFixed 1 (broadPct rows * 100) ++ "%",
    threshold := some "70:20:10 (Exact:Phrase:Broad)",
    details :=
      [ [("Match Type", .s "EXACT"), ("Spend", .q (spendByType rows "EXACT")),
         ("Percentage", .s (fmtFixed 1 (exactPct rows * 100) ++ "%")),
         ("Target", .s "≥70%"),
         ("Status", .s (if ssExactOk rows then "✅" else "❌"))],
        [("Match Type", .s "PHRASE"), ("Spend", .q (spendByType rows "PHRASE")),
         ("Percentage", .s (fmtFixed 1 (phrasePct rows * 100) ++ "%")),
         ("Target", .s "~20%"),
         ("Status", .s (if ssPhraseOk rows then "✅" else "⚠️"))],
        [("Match Type", .s "BROAD"), ("Spend", .q (spendByType rows "BROAD")),
         ("Percentage", .s (fmtFixed 1 (broadPct rows * 100) ++ "%")),
         ("Target", .s "~10%"),
         ("Status", .s (if ssBroadOk rows then "✅" else "⚠️"))] ] }

/-- Check 1: Contribution of Spends - 70:20:10 (Exact:Phrase:Broad). -/
def check_spend_split (rows : List KeywordSpendRow) : CheckResult :=
  if rows.isEmpty then
    { status := .info, score := none,
      message := "No keyword data found for search campaigns" }
  else if totalSpend rows = 0 then
    { status := .info, score := none, message := "No spend data found" }
  else
    spendSplitMain rows

/-! ### Check 2: check_audience_observation — search_checks.py lines 105-196 -/

/-- One campaign_criterion row: campaign id, criterion type name, and the
user-interest category string (None modelled as Option.none). -/
structure CriterionRow where
  campaignId : Nat
  criterionType : String
  userInterestCategory : Option String
deriving DecidableEq, Repr

/-- A campaign row (id and name) from the all-search-campaigns query. -/
structure CampaignRow where
  id : Nat
  name : String
deriving DecidableEq, Repr

/-- The three audience flags tracked per campaign
(campaign_audiences entry). -/
structure AudFlags where
  remarketing : Bool := false
  inmarket : Bool := false
  affinity : Bool := false
deriving DecidableEq, Repr

/-- The flags accumulated for one campaign by the source's loop over the
criterion rows (USER_LIST sets remarketing; USER_INTEREST sets inmarket or
affinity from the lowered category string when it is non-empty). -/
def audFor (critRows : List CriterionRow) (cid : Nat) : AudFlags :=
  critRows.foldl
    (fun acc r =>
      if r.campaignId = cid then
        if r.criterionType = "USER_LIST" then { acc with remarketing := true }
        else if r.criterionType = "USER_INTEREST" then
          match r.userInterestCategory with
          | some cat =>
            if cat ≠ "" then
              let cl := lowerStr cat
              if containsStr cl "inmarket" || containsStr cl "in-market" then
                { acc with inmarket := true }
              else if containsStr cl "affinity" then
                { acc with affinity := true }
              else acc
            else acc
          | none => acc
        else acc
      else acc)
    {}

/-- The missing-audience labels for one campaign, in the source's order. -/
def missingAudiences (critRows : List CriterionRow) (cid : Nat) : List String :=
  let a := audFor critRows cid
  (if a.remarketing then [] else ["Remarketing"])
    ++ (if a.inmarket then [] else ["Inmarket"])
    ++ (if a.affinity then [] else ["Affinity"])

/-- campaigns_with_issues: one detail row per campaign missing at least
one audience type. -/
def audIssues (critRows : List CriterionRow) (campaignRows : List CampaignRow) :
    List Row :=
  campaignRows.filterMap (fun c =>
    let missing := missingAudiences critRows c.id
    if missing.isEmpty then none
    else some
      [("campaign_id", .s (toString c.id)), ("campaign_name", .s c.name),
       ("missing_audiences", .s (joinSep ", " missing)),
       ("issue", .s ("Missing " ++ toString missing.length ++ " audience type(s)"))])

/-- score of check 2: non_compliant / total * 100, falling back to 0 when
there are no campaigns at all. -/
def audScore (critRows : List CriterionRow) (campaignRows : List CampaignRow) : Rat :=
  if campaignRows.length > 0 then
    ((audIssues critRows campaignRows).length : Rat) / campaignRows.length * 100
  else 0

/-- Check 2: Audience in Observation.  Every enabled search campaign should
carry all three audience types.  N.B. with an empty campaign list total = 0,
the score falls back to 0 and the banding turns that into "pass". -/
def check_audience_observation (critRows : List CriterionRow)
    (campaignRows : List CampaignRow) : CheckResult :=
  { status := if audScore critRows campaignRows = 0 then Status.pass
      else if audScore critRows campaignRows ≤ 20 then Status.warning
      else Status.fail,
    score := some (audScore critRows campaignRows),
    message := toString (campaignRows.length - (audIssues critRows campaignRows).length)
      ++ "/" ++ toString campaignRows.length ++ " campaigns have all 3 audience types",
    threshold := some "All campaigns should have Remarketing, Inmarket, and Affinity",
    details := audIssues critRows campaignRows }

/-! ### Check 6: check_cross_keyword_negation — search_checks.py lines 375-507 -/

/-- A positive keyword_view row (negative = false). -/
structure PosKwRow where
  campaignId : Nat
  campaignName : String
  adGroupId : Nat
  adGroupName : String
  keywordText : String
deriving DecidableEq, Repr

/-- A negative keyword_view row (negative = true). -/
structure NegKwRow where
  campaignId : Nat
  adGroupId : Nat
  keywordText : String
  matchType : String
deriving DecidableEq, Repr

/-- Campaign ids in first-occurrence order of the positive rows.  (The
source's campaign_data dict also acquires entries for campaigns that only
have EXACT negatives, but those entries have no ad groups and are skipped
by the len < 2 guard, so they contribute nothing.) -/
def cknCampaignIds (posRows : List PosKwRow) : List Nat :=
  (posRows.map (fun r => r.campaignId)).dedup

/-- Ad-group ids of one campaign, deduplicated. -/
def cknAgIds (posRows : List PosKwRow) (cid : Nat) : List Nat :=
  ((posRows.filter (fun r => r.campaignId == cid)).map (fun r => r.adGroupId)).dedup

/-- The distinct lowered positive keywords of one ad group (the source
accumulates them into a set). -/
def cknAgKeywords (posRows : List PosKwRow) (cid ag : Nat) : List String :=
  ((posRows.filter (fun r => r.campaignId == cid && r.adGroupId == ag)).map
    (fun r => lowerStr r.keywordText)).dedup

/-- The lowered EXACT-match negative keywords of one ad group
(membership in the source's negatives set). -/
def cknNegSet (negRows : List NegKwRow) (cid ag : Nat) : List String :=
  (negRows.filter (fun r =>
    r.campaignId == cid && r.adGroupId == ag && r.matchType == "EXACT")).map
    (fun r => lowerStr r.keywordText)

/-- Campaign name as recorded by the source (overwritten on every positive
row, so the last row's name wins). -/
def cknCampaignName (posRows : List PosKwRow) (cid : Nat) : String :=
  match (posRows.filter (fun r => r.campaignId == cid)).getLast? with
  | some r => r.campaignName
  | none => ""

/-- Ad-group name as recorded by the source (set when the ad group is
first seen, so the first row's name wins). -/
def cknAgName (posRows : List PosKwRow) (cid ag : Nat) : String :=
  match (posRows.filter (fun r => r.campaignId == cid && r.adGroupId == ag)).head? with
  | some r => r.adGroupName
  | none => ""

/-- The full sequence of pairwise negation checks the source performs:
for every campaign with at least 2 ad groups, for every ad group, for every
distinct keyword, for every other sibling ad group, a Boolean outcome
(true = the keyword is in the sibling's exact negatives) paired with the
detail row emitted on failure. -/
def cknOutcomes (posRows : List PosKwRow) (negRows : List NegKwRow) :
    List (Bool × Row) :=
  (cknCampaignIds posRows).flatMap (fun cid =>
    let ags := cknAgIds posRows cid
    if ags.length < 2 then []
    else
      ags.flatMap (fun ag =>
        (cknAgKeywords posRows cid ag).flatMap (fun kw =>
          (ags.filter (fun o => o != ag)).map (fun other =>
            if kw ∈ cknNegSet negRows cid other then (true, [])
            else
              (false,
               [("campaign_name", .s (cknCampaignName posRows cid)),
                ("source_ad_group", .s (cknAgName posRows cid ag)),
                ("keyword", .s kw),
                ("missing_in_ad_group", .s (cknAgName posRows cid other)),
                ("issue", .s "Keyword not negated in other ad group")])))))

/-- total_checks of the source. -/
def cknTotalChecks (posRows : List PosKwRow) (negRows : List NegKwRow) : Nat :=
  (cknOutcomes posRows negRows).length

/-- passed_checks of the source. -/
def cknPassedChecks (posRows : List PosKwRow) (negRows : List NegKwRow) : Nat :=
  ((cknOutcomes posRows negRows).filter (fun o => o.1)).length

/-- missing_negations: the detail rows of the failed pairwise checks. -/
def cknMissing (posRows : List PosKwRow) (negRows : List NegKwRow) : List Row :=
  ((cknOutcomes posRows negRows).filter (fun o => !o.1)).map (fun o => o.2)

/-- score of check 6: failed share of all pairwise checks, as a
percentage. -/
def cknScore (posRows : List PosKwRow) (negRows : List NegKwRow) : Rat :=
  ((cknTotalChecks posRows negRows - cknPassedChecks posRows negRows : Nat) : Rat)
    / (cknTotalChecks posRows negRows : Rat) * 100

/-- Check 6: Cross Keyword Negation.  Details are truncated to the first
100 rows.  Status passes up to a 10% failed share. -/
def check_cross_keyword_negation (posRows : List PosKwRow)
    (negRows : List NegKwRow) : CheckResult :=
  if cknTotalChecks posRows negRows = 0 then
    { status := .info, score := none,
      message := "No campaigns with multiple ad groups found for cross-negation",
      threshold := some "Keywords from one ad group should be negated in other ad groups (within same campaign)" }
  else
    { status := if cknScore posRows negRows ≤ 10 then Status.pass
        else if cknScore posRows negRows ≤ 30 then Status.warning
        else Status.fail,
      score := some (cknScore posRows negRows),
      message := toString (cknPassedChecks posRows negRows) ++ "/"
        ++ toString (cknTotalChecks posRows negRows)
        ++ " cross-negations in place (" ++ fmtFixed 1 (cknScore posRows negRows)
        ++ "%)",
      threshold := some "Keywords from one ad group should be negated in other ad groups (within same campaign)",
      details := (cknMissing posRows negRows).take 100 }

/-! ### Check 7: check_ad_copy_quality — search_checks.py lines 511-578 -/

/-- One ad_group_ad row for the ad-strength check; `adStrength` is `none`
when the proto enum is falsy, which the source renders as "UNKNOWN". -/
structure AdStrengthRow where
  campaignName : String
  adGroupName : String
  adId : Nat
  adStrength : Option String
deriving DecidableEq, Repr

/-- The strength bucket of a row (the source's
`row.ad_group_ad.ad_strength.name if row.ad_group_ad.ad_strength else "UNKNOWN"`). -/
def strengthOf (r : AdStrengthRow) : String :=
  match r.adStrength with
  | some s => s
  | none => "UNKNOWN"

/-- Insert a string into a ≤-sorted list (used to model Python's
`sorted(...)` over the distinct strength keys). -/
def insertSortedStr (x : String) : List String → List String
  | [] => [x]
  | y :: ys => if x ≤ y then x :: y :: ys else y :: insertSortedStr x ys

/-- Sort a list of strings. -/
def sortStrs (xs : List String) : List String :=
  xs.foldr insertSortedStr []

/-- The distinct strength values among the rows, sorted — the keys of the
source's strength_counts dict as iterated by `sorted(...)`. -/
def distinctStrengths (rows : List AdStrengthRow) : List String :=
  sortStrs ((rows.map strengthOf).dedup)

/-- strength_counts[s]. -/
def strengthCount (rows : List AdStrengthRow) (s : String) : Nat :=
  (rows.filter (fun r => strengthOf r == s)).length

/-- poor_average: ads that are neither EXCELLENT nor GOOD. -/
def acqPoorAverage (rows : List AdStrengthRow) : Nat :=
  rows.length - (strengthCount rows "EXCELLENT" + strengthCount rows "GOOD")

/-- score of check 7: share of ads that are neither EXCELLENT nor GOOD. -/
def acqScore (rows : List AdStrengthRow) : Rat :=
  if rows.length > 0 then (acqPoorAverage rows : Rat) / rows.length * 100 else 0

/-- The per-strength summary table (one row per distinct strength value)
that check 7 publishes as its `details`. -/
def acqSummary (rows : List AdStrengthRow) : List Row :=
  (distinctStrengths rows).map (fun s =>
    [("Ad Strength", .s s), ("Count", .i (strengthCount rows s)),
     ("Percentage", .s (if rows.length > 0
        then fmtFixed 1 ((strengthCount rows s : Rat) / rows.length * 100) ++ "%"
        else "0%"))])

/-- The POOR / PENDING / UNKNOWN ads listed in check 7's `issues` table. -/
def acqPoorAds (rows : List AdStrengthRow) : List Row :=
  (rows.filter (fun r => strengthOf r == "POOR" || strengthOf r == "PENDING"
      || strengthOf r == "UNKNOWN")).map (fun r =>
    [("campaign_name", .s r.campaignName), ("ad_group_name", .s r.adGroupName),
     ("ad_id", .s (toString r.adId)), ("ad_strength", .s (strengthOf r))])

/-- Check 7: Ad Copy Quality.  `details` is the per-strength summary
table, not the list of non-compliant ads (those go into `issues`). -/
def check_ad_copy_quality (rows : List AdStrengthRow) : CheckResult :=
  { status := if acqScore rows ≤ 30 then Status.pass
      else if acqScore rows ≤ 50 then Status.warning else Status.fail,
    score := some (acqScore rows),
    message := "Excellent/Good: "
      ++ toString (strengthCount rows "EXCELLENT" + strengthCount rows "GOOD")
      ++ "/" ++ toString rows.length ++ " (" ++ fmtFixed 1 (acqScore rows) ++ "%)",
    threshold := some "Majority of ads should have Excellent or Good strength",
    details := acqSummary rows,
    issues := acqPoorAds rows }

/-! ### Check 9: check_display_path — search_checks.py lines 662-722 -/

/-- One RSA row for the display-path check; path1/path2 are `none` when
the field is unset (the source coalesces with `or ""`). -/
structure PathRow where
  campaignName : String
  adGroupName : String
  adId : Nat
  path1 : Option String
  path2 : Option String
deriving DecidableEq, Repr

/-- An ad is compliant when path1 has non-whitespace content
(`path1.strip()` is truthy). -/
def pathCompliant (r : PathRow) : Bool :=
  (trimStr (r.path1.getD "")).data != []

/-- ads_with_issues of check 9. -/
def dpIssues (rows : List PathRow) : List Row :=
  (rows.filter (fun r => !pathCompliant r)).map (fun r =>
    let p1 := r.path1.getD ""
    let p2 := r.path2.getD ""
    [("campaign_name", .s r.campaignName), ("ad_group_name", .s r.adGroupName),
     ("ad_id", .s (toString r.adId)),
     ("path1", .s (if p1 = "" then "Missing" else p1)),
     ("path2", .s (if p2 = "" then "-" else p2)),
     ("issue", .s "Display path not set")])

/-- score of check 9: share of ads without a display path, falling back
to 0 when there are no rows. -/
def dpScore (rows : List PathRow) : Rat :=
  if rows.length > 0 then ((dpIssues rows).length : Rat) / rows.length * 100 else 0

/-- Check 9: Display Path Added.  N.B. with an empty row list total = 0,
the score falls back to 0 and the banding yields "pass". -/
def check_display_path (rows : List PathRow) : CheckResult :=
  { status := if dpScore rows = 0 then Status.pass
      else if dpScore rows ≤ 10 then Status.warning else Status.fail,
    score := some (dpScore rows),
    message := toString (rows.length - (dpIssues rows).length) ++ "/"
      ++ toString rows.length ++ " ads have display path set",
    threshold := some "All ads should have display path",
    details := dpIssues rows }

/-! ### Check 10: check_weighted_quality_score — search_checks.py lines 726-867 -/

/-- One keyword_view row for the quality-score check; `qualityScore` is
`none` when the field is absent (the source also skips a present score of
0). -/
structure QsRow where
  campaignName : String
  adGroupName : String
  keywordText : String
  qualityScore : Option Rat
  impressions : Nat
deriving DecidableEq, Repr

/-- Rows kept by the source's loop: a quality score that is neither None
nor 0. -/
def qsKept (r : QsRow) : Bool :=
  match r.qualityScore with
  | some q => decide (q ≠ 0)
  | none => false

/-- The audience segment of a row, inferred from the lowered ad-group
name: brand, competitor, or (by default) non-brand. -/
def qsSegment (r : QsRow) : String :=
  let agl := lowerStr r.adGroupName
  if AD_GROUP_TYPE_KEYWORDS_brand.any (fun kw => containsStr agl kw) then "brand"
  else if AD_GROUP_TYPE_KEYWORDS_competitor.any (fun kw => containsStr agl kw) then
    "competitor"
  else "non_brand"

/-- The kept rows of one segment. -/
def qsData (rows : List QsRow) (seg : String) : List QsRow :=
  rows.filter (fun r => qsKept r && qsSegment r == seg)

/-- calc_weighted_avg of the source: impression-weighted average quality
score, `none` on an empty list or a zero impression total. -/
def calcWeightedAvg (data : List QsRow) : Option Rat :=
  if data.isEmpty then none
  else
    let total_weight :=
      (data.map (fun d => (d.qualityScore.getD 0) * (d.impressions : Rat))).sum
    let total_impressions : Nat := (data.map (fun d => d.impressions)).sum
    if total_impressions > 0 then some (total_weight / (total_impressions : Rat))
    else none

/-- The weighted average of one segment. -/
def segWqs (rows : List QsRow) (seg : String) : Option Rat :=
  calcWeightedAvg (qsData rows seg)

/-- Python truthiness of an optional float (`if brand_wqs:`):
false for None and for 0.0. -/
def qTruthy : Option Rat → Bool
  | some v => decide (v ≠ 0)
  | none => false

/-- The inverted contribution of one segment with floor f:
min(max(0, f - wqs) / f * 100 * 2, 100). -/
def invScore (f : Rat) (wqs : Rat) : Rat :=
  min (max 0 (f - wqs) / f * 100 * 2) 100

/-- The inv_scores list of the source: one entry per truthy segment
average, in brand / non-brand / competitor order. -/
def qsInvScores (rows : List QsRow) : List Rat :=
  (if qTruthy (segWqs rows "brand") then
    [invScore QUALITY_SCORE_THRESHOLDS_brand ((segWqs rows "brand").getD 0)] else [])
  ++ (if qTruthy (segWqs rows "non_brand") then
    [invScore QUALITY_SCORE_THRESHOLDS_non_brand ((segWqs rows "non_brand").getD 0)]
    else [])
  ++ (if qTruthy (segWqs rows "competitor") then
    [invScore QUALITY_SCORE_THRESHOLDS_competitor ((segWqs rows "competitor").getD 0)]
    else [])

/-- Whether a present segment average misses its floor (the source appends
the segment to `issues` exactly in this case). -/
def qsBelow (wqs : Option Rat) (f : Rat) : Bool :=
  match wqs with
  | some v => decide (v < f)
  | none => false

/-- The number of segments that missed their floor (len(issues)). -/
def qsIssuesCount (rows : List QsRow) : Nat :=
  (if qsBelow (segWqs rows "brand") QUALITY_SCORE_THRESHOLDS_brand then 1 else 0)
  + (if qsBelow (segWqs rows "non_brand") QUALITY_SCORE_THRESHOLDS_non_brand
     then 1 else 0)
  + (if qsBelow (segWqs rows "competitor") QUALITY_SCORE_THRESHOLDS_competitor
     then 1 else 0)

/-- overall_score of check 10: the mean of the truthy segments' inverted
contributions, 0 when no segment contributes. -/
def qsOverallScore (rows : List QsRow) : Rat :=
  if (qsInvScores rows).length > 0 then
    (qsInvScores rows).sum / ((qsInvScores rows).length : Rat)
  else 0

/-- "9.50"-style rendering of an optional average ("N/A" when absent). -/
def wqsStr (o : Option Rat) : String :=
  match o with
  | some v => fmtFixed 2 v
  | none => "N/A"

/-- The message of check 10, rendering absent segments as "N/A". -/
def qsMessage (rows : List QsRow) : String :=
  "Brand: " ++ wqsStr (segWqs rows "brand") ++ ", Non-Brand: "
    ++ wqsStr (segWqs rows "non_brand") ++ ", Competitor: "
    ++ wqsStr (segWqs rows "competitor")

/-- One row of the per-segment results table. -/
def qsResultRow (label : String) (wqs : Rat) (f : Rat) (kwCount : Nat) : Row :=
  [("Category", .s label), ("Weighted QS", .s (fmtFixed 2 wqs)),
   ("Threshold", .s (">= " ++ toString f.num)),
   ("Keywords", .i kwCount),
   ("Status", .s (if f ≤ wqs then "✅" else "❌"))]

/-- The results table of check 10: one row per present segment, absent
segments omitted. -/
def qsResults (rows : List QsRow) : List Row :=
  (match segWqs rows "brand" with
   | some v => [qsResultRow "Brand" v QUALITY_SCORE_THRESHOLDS_brand
       (qsData rows "brand").length]
   | none => [])
  ++ (match segWqs rows "non_brand" with
   | some v => [qsResultRow "Non-Brand" v QUALITY_SCORE_THRESHOLDS_non_brand
       (qsData rows "non_brand").length]
   | none => [])
  ++ (match segWqs rows "competitor" with
   | some v => [qsResultRow "Competitor" v QUALITY_SCORE_THRESHOLDS_competitor
       (qsData rows "competitor").length]
   | none => [])

/-- Check 10: Weighted Average Quality Score.  Segments with data are
compared against their floors (brand 9, non-brand 7, competitor 5); the
score is the mean of the truthy segments' inverted contributions (0 when
no segment is present); the status is fail iff any present segment misses
its floor.  The message renders absent segments as "N/A". -/
def check_weighted_quality_score (rows : List QsRow) : CheckResult :=
  { status := if qsIssuesCount rows = 0 then Status.pass else Status.fail,
    score := some (qsOverallScore rows),
    message := qsMessage rows,
    threshold := some "Brand>=9, Non-Brand>=7, Competitor>=5",
    details := qsResults rows }

/-! ### Check 11: check_keywords_without_impressions — search_checks.py lines 871-923 -/

/-- One keyword_view row for the zero-impressions check. -/
structure KwImprRow where
  campaignName : String
  adGroupName : String
  keywordText : String
  matchType : String
  impressions : Nat
deriving DecidableEq, Repr

/-- keywords_without_impressions as detail rows. -/
def kwiWithout (rows : List KwImprRow) : List Row :=
  (rows.filter (fun r => r.impressions == 0)).map (fun r =>
    [("campaign_name", .s r.campaignName), ("ad_group_name", .s r.adGroupName),
     ("keyword", .s r.keywordText), ("match_type", .s r.matchType),
     ("impressions", .i 0)])

/-- The zero-impression percentage, falling back to 0 with no rows. -/
def kwiPercentage (rows : List KwImprRow) : Rat :=
  if rows.length > 0 then ((kwiWithout rows).length : Rat) / rows.length * 100 else 0

/-- Check 11: Percentage of Keywords without Impressions.  The banding is
on the raw zero-impression percentage, while the reported score is
100 - percentage (the compliant share, not the affected share). -/
def check_keywords_without_impressions (rows : List KwImprRow) : CheckResult :=
  { status := if kwiPercentage rows < 20 then Status.pass
      else if kwiPercentage rows < 40 then Status.warning else Status.fail,
    score := some (100 - kwiPercentage rows),
    message := toString (kwiWithout rows).length ++ "/" ++ toString rows.length
      ++ " keywords (" ++ fmtFixed 1 (kwiPercentage rows) ++ "%) have zero impressions",
    threshold := some "Lower percentage is better",
    details := kwiWithout rows }

/-! ### Check 3: check_limited_by_budget — universal_checks.py lines 12-67 -/

/-- One campaign row for the limited-by-budget check. -/
structure BudgetRow where
  campaignId : Nat
  campaignName : String
  hasRecommendedBudget : Bool
  recommendedBudgetMicros : Option Int
  amountMicros : Int
deriving DecidableEq, Repr

/-- limited_campaigns as detail rows. -/
def lbLimited (rows : List BudgetRow) : List Row :=
  (rows.filter (fun r => r.hasRecommendedBudget)).map (fun r =>
    [("campaign_id", .s (toString r.campaignId)),
     ("campaign_name", .s r.campaignName),
     ("current_budget", .q ((r.amountMicros : Rat) / 1000000)),
     ("recommended_budget",
      match r.recommendedBudgetMicros with
      | some v => if v ≠ 0 then Field.q ((v : Rat) / 1000000) else Field.null
      | none => Field.null),
     ("issue", .s "Limited by Budget")])

/-- limited_percentage: the fraction of campaigns flagged
has_recommended_budget. -/
def limitedPct (rows : List BudgetRow) : Rat :=
  ((lbLimited rows).length : Rat) / rows.length

/-- The result check 3 builds on a non-empty campaign list: pass below the
10% threshold, otherwise fail — this check has no warning band. -/
def limitedByBudgetMain (rows : List BudgetRow) : CheckResult :=
  { status := if limitedPct rows < LIMITED_BUDGET_THRESHOLD
      then Status.pass else Status.fail,
    score := some (limitedPct rows * 100),
    message := toString (lbLimited rows).length ++ "/" ++ toString rows.length
      ++ " campaigns (" ++ fmtFixed 1 (limitedPct rows * 100)
      ++ "%) limited by budget",
    threshold := some "< 10.0%",
    details := lbLimited rows }

/-- Check 3: Limited by Budget Campaigns.  Empty input degrades to info. -/
def check_limited_by_budget (rows : List BudgetRow) : CheckResult :=
  if rows.isEmpty then
    { status := .info, score := none, message := "No active campaigns found" }
  else
    limitedByBudgetMain rows

/-! ### Check 26: check_pmax_spend_split — pmax_checks.py lines 962-1040 -/

/-- One PMax campaign spend row (only cost_micros is consumed by the
check's arithmetic). -/
structure PmaxSpendRow where
  costMicros : Int
deriving DecidableEq, Repr

/-- Total PMax spend.  The source's simplified loop credits every row's
spend to the OTHER bucket, so SHOPPING and VIDEO stay 0 and OTHER equals
this total. -/
def pmaxTotalSpend (rows : List PmaxSpendRow) : Rat :=
  (rows.map (fun r => (r.costMicros : Rat) / 1000000)).sum

/-- shopping_ok of check 26 (with shopping_pct = 0 / total = 0). -/
def pmaxShoppingOk : Prop :=
  |(0 : Rat) - PMAX_SPEND_SPLIT_SHOPPING| ≤ PMAX_SPEND_TOLERANCE

instance : Decidable pmaxShoppingOk := by
  unfold pmaxShoppingOk; infer_instance

/-- video_ok of check 26 (with video_pct = 0 / total = 0). -/
def pmaxVideoOk : Prop :=
  |(0 : Rat) - PMAX_SPEND_SPLIT_VIDEO| ≤ PMAX_SPEND_TOLERANCE

instance : Decidable pmaxVideoOk := by
  unfold pmaxVideoOk; infer_instance

/-- The result check 26 builds once both guards have passed: pass when
shopping and video are both within tolerance, otherwise warning — this
check never returns fail.  Score is the amplified deviation of the
(always zero) shopping share from 80, capped at 100. -/
def pmaxSpendSplitMain (rows : List PmaxSpendRow) : CheckResult :=
  { status := if pmaxShoppingOk ∧ pmaxVideoOk then Status.pass else Status.warning,
    score := some (min (|(0 : Rat) * 100 - PMAX_SPEND_SPLIT_SHOPPING * 100| * (3/2)) 100),
    message := "Shopping: " ++ fmtFixed 1 0 ++ "%, Video: " ++ fmtFixed 1 0
      ++ "%, Other: " ++ fmtFixed 1 ((pmaxTotalSpend rows / pmaxTotalSpend rows) * 100)
      ++ "%",
    threshold := some "80:10:10 (Shopping:Video:Other)",
    details :=
      [ [("Channel", .s "Shopping"), ("Spend", .q 0),
         ("Percentage", .s (fmtFixed 1 0 ++ "%")), ("Target", .s "~80%")],
        [("Channel", .s "Video"), ("Spend", .q 0),
         ("Percentage", .s (fmtFixed 1 0 ++ "%")), ("Target", .s "~10%")],
        [("Channel", .s "Other"), ("Spend", .q (pmaxTotalSpend rows)),
         ("Percentage",
          .s (fmtFixed 1 ((pmaxTotalSpend rows / pmaxTotalSpend rows) * 100) ++ "%")),
         ("Target", .s "~10%")] ] }

/-- Check 26: PMax Spend Split - 80:10:10. -/
def check_pmax_spend_split (rows : List PmaxSpendRow) : CheckResult :=
  if rows.isEmpty then
    { status := .info, score := none, message := "No PMax spend data found" }
  else if pmaxTotalSpend rows = 0 then
    { status := .info, score := none, message := "No spend data to analyze" }
  else
    pmaxSpendSplitMain rows

/-! ### Aggregators — ui_components.py render_summary_stats (lines 205-233)
and data_processing.py calculate_overall_health_score (lines 48-70) -/

/-- The summary figures render_summary_stats derives before displaying
its metrics. -/
structure SummaryStats where
  total : Nat
  passed : Nat
  failed : Nat
  warnings : Nat
  info : Nat
  overallPositiveScore : Rat
deriving DecidableEq, Repr

/-- The eligible score list of render_summary_stats:
the scores of all results whose score is not None. -/
def eligibleScores (results : List CheckResult) : List Rat :=
  results.filterMap (fun r => r.score)

/-- avg_affected of render_summary_stats: mean of the eligible scores,
falling back to 0 when no result carries one. -/
def avgAffected (results : List CheckResult) : Rat :=
  if (eligibleScores results).length > 0 then
    (eligibleScores results).sum / ((eligibleScores results).length : Rat)
  else 0

/-- render_summary_stats: per-status counts (info is the remainder), and
the overall "positive" score max(0, 100 - mean of the non-None scores). -/
def render_summary_stats (results : List CheckResult) : SummaryStats :=
  { total := results.length,
    passed := (results.filter (fun r => r.status == .pass)).length,
    failed := (results.filter (fun r => r.status == .fail)).length,
    warnings := (results.filter (fun r => r.status == .warning)).length,
    info := results.length - (results.filter (fun r => r.status == .pass)).length
      - (results.filter (fun r => r.status == .fail)).length
      - (results.filter (fun r => r.status == .warning)).length,
    overallPositiveScore := max 0 (100 - avgAffected results) }

/-- The status weights of calculate_overall_health_score
(info is None: such results are skipped). -/
def statusWeight : Status → Option Rat
  | .pass => some 1
  | .warning => some (7/10)
  | .fail => some 0
  | .info => none
  | .error => some 0

/-- The value one result appends to the scores list of
calculate_overall_health_score: its own score when present, otherwise the
status weight times 100 when the status carries a weight. -/
def healthContribution (r : CheckResult) : Option Rat :=
  match r.score with
  | some s => some s
  | none =>
    match statusWeight r.status with
    | some w => some (w * 100)
    | none => none

/-- calculate_overall_health_score: the plain mean of the contributions,
0 when no result contributes. -/
def calculate_overall_health_score (results : List CheckResult) : Rat :=
  if (results.filterMap healthContribution).length > 0 then
    (results.filterMap healthContribution).sum
      / ((results.filterMap healthContribution).length : Rat)
  else 0

/-! ### Runners — search_checks.py run_all_search_checks (lines 927-960)
and universal_checks.py run_all_universal_checks (lines 190-208).

A check invocation is modelled by its outcome: `Except.ok` with the
returned result, or `Except.error` carrying str(exception) for a raised
exception.  `outcome` maps each cataloged check id to that run's outcome
of its check function. -/

/-- CHECK_DESCRIPTIONS from constants.py, restricted to the ids the two
modelled runners stamp. -/
def CHECK_DESCRIPTIONS : Nat → String
  | 1 => "Contribution of Spends - 70:20:10 (Exact:Phrase:Broad)"
  | 2 => "Audience in Observation - Remarketing, Inmarket, Affinity"
  | 3 => "Limited by Budget Campaigns - Should be <10%"
  | 4 => "Number of RSAs - At least 2 per ad group"
  | 5 => "Unique RSAs Ratio - At least 1:1"
  | 6 => "Cross Keyword Negation"
  | 7 => "Ad Copy Quality - Ad Strength Distribution"
  | 8 => "4 Unique Sitelinks per RSA"
  | 9 => "Display Path Added"
  | 10 => "Weighted Average Quality Score"
  | 11 => "Percentage of Keywords without Impressions"
  | 12 => "Conversion Goal - Campaign Specific"
  | 13 => "Location Targeting - Presence Only"
  | _ => ""

/-- The catalog order of the search runner's checks list. -/
def SEARCH_CHECK_IDS : List Nat := [1, 2, 4, 5, 6, 7, 8, 9, 10, 11]

/-- The entry the search runner records for one catalog id: a returned
result is kept and stamped with its display name, a raised exception is
converted to an error result with message "Error: {e}". -/
def searchEntry (outcome : Nat → Except String CheckResult) (num : Nat) :
    Nat × CheckResult :=
  match outcome num with
  | .ok r => (num, { r with name := some (CHECK_DESCRIPTIONS num) })
  | .error e =>
    (num, { status := .error, score := none, message := "Error: " ++ e,
            name := some (CHECK_DESCRIPTIONS num) })

/-- run_all_search_checks: iterate the catalog, recording an entry per
check id.  The run itself always returns the complete id-to-result list. -/
def run_all_search_checks (outcome : Nat → Except String CheckResult) :
    List (Nat × CheckResult) :=
  SEARCH_CHECK_IDS.map (searchEntry outcome)

/-- run_all_universal_checks calls its three checks with no try/except: a
raised exception propagates out of the category run, which is therefore
modelled in the Except monad.  Only when all three checks return does the
runner produce its id-to-result map. -/
def run_all_universal_checks (o3 o12 o13 : Except String CheckResult) :
    Except String (List (Nat × CheckResult)) :=
  match o3 with
  | .error e => .error e
  | .ok r3 =>
    match o12 with
    | .error e => .error e
    | .ok r12 =>
      match o13 with
      | .error e => .error e
      | .ok r13 =>
        .ok [(3, { r3 with name := some (CHECK_DESCRIPTIONS 3) }),
             (12, { r12 with name := some (CHECK_DESCRIPTIONS 12) }),
             (13, { r13 with name := some (CHECK_DESCRIPTIONS 13) })]

/-! ### Concrete evaluation inputs -/

/-- Spend rows with a 50/50 exact/phrase split of a total spend of 1. -/
def rows50 : List KeywordSpendRow := [⟨"EXACT", 500000⟩, ⟨"PHRASE", 500000⟩]

/-- Spend rows with exactly 70% exact and 30% broad (phrase share 0). -/
def exSplitMix : List KeywordSpendRow := [⟨"EXACT", 700000⟩, ⟨"BROAD", 300000⟩]

/-- One PMax campaign row with 1 unit of spend. -/
def exPmax : List PmaxSpendRow := [⟨1000000⟩]

/-- A single keyword row that did receive impressions. -/
def exKwImpr : List KwImprRow := [⟨"Camp", "AG", "shoes", "EXACT", 5⟩]

/-- A single RSA whose ad strength is EXCELLENT. -/
def exAcq : List AdStrengthRow := [⟨"Camp", "AG", 1, some "EXCELLENT"⟩]

/-- Positive keywords of one campaign with two ad groups of ten keywords
each. -/
def exPos : List PosKwRow :=
  (List.range 10).map (fun i => ⟨1, "Camp", 1, "AG1", "a" ++ toString i⟩)
  ++ (List.range 10).map (fun i => ⟨1, "Camp", 2, "AG2", "b" ++ toString i⟩)

/-- Exact negatives covering all of AG1's keywords in AG2 but only nine of
AG2's keywords in AG1, so exactly 1 of 20 pairwise checks fails. -/
def exNeg : List NegKwRow :=
  (List.range 10).map (fun i => ⟨1, 2, "a" ++ toString i, "EXACT"⟩)
  ++ (List.range 9).map (fun i => ⟨1, 1, "b" ++ toString i, "EXACT"⟩)

/-- Quality-score rows: a brand ad group with weighted average 9.5, a
non-brand ad group with weighted average 5, and no competitor data. -/
def exQs : List QsRow :=
  [⟨"Camp", "Brand AG", "kw1", some (19/2), 10⟩,
   ⟨"Camp", "Generic", "kw2", some 5, 4⟩]

/-- One campaign flagged limited-by-budget. -/
def exBudget : List BudgetRow := [⟨1, "Camp", true, none, 1000000⟩]

/-! ### Shared helper lemmas -/

/-- Filtering by the negated predicate keeps exactly the elements the
positive filter drops. -/
theorem length_filter_not_eq_sub {α : Type} (p : α → Bool) (l : List α) :
    (l.filter (fun a => !p a)).length = l.length - (l.filter p).length := by
  induction l with
  | nil => rfl
  | cons a l ih =>
    have hle := List.length_filter_le p l
    cases h : p a
    · simp [List.filter_cons, h, ih]
      omega
    · simp [List.filter_cons, h, ih]

/-- The audience check's issue count is the number of campaigns missing at
least one audience type. -/
theorem audIssues_length (cr : List CriterionRow) (cs : List CampaignRow) :
    (audIssues cr cs).length
      = (cs.filter (fun c => !(missingAudiences cr c.id).isEmpty)).length := by
  induction cs with
  | nil => rfl
  | cons c cs ih =>
    by_cases h : missingAudiences cr c.id = [] <;>
      simpa [audIssues, List.filterMap_cons, List.filter_cons, h] using ih

/-! ### Claim C1 -/

/-- C1 counterexample: the claim says every check returns status info with
score None on an empty primary universe, and never pass — but
check_audience_observation and check_display_path, evaluated on empty
universe collections, both return status pass with score 0. -/
theorem C1_counterexample :
    (check_audience_observation [] []).status = Status.pass
    ∧ (check_audience_observation [] []).score = some 0
    ∧ (check_display_path []).status = Status.pass
    ∧ (check_display_path []).score = some 0 := by
  refine ⟨?_, ?_, ?_, ?_⟩ <;>
    simp [check_audience_observation, check_display_path, audScore, audIssues,
      dpScore, dpIssues]

/-- C1 amended: checks that explicitly guard the empty universe
(check_spend_split, check_cross_keyword_negation, check_limited_by_budget)
return status info with score None on empty input, but
check_audience_observation and check_display_path fall through their
division guards and return status pass with score 0 when their universe
collection is empty. -/
theorem C1_empty_universe :
    ((check_spend_split []).status = Status.info ∧ (check_spend_split []).score = none)
    ∧ (∀ negRows : List NegKwRow,
        (check_cross_keyword_negation [] negRows).status = Status.info
        ∧ (check_cross_keyword_negation [] negRows).score = none)
    ∧ ((check_limited_by_budget []).status = Status.info
        ∧ (check_limited_by_budget []).score = none)
    ∧ (∀ critRows : List CriterionRow,
        (check_audience_observation critRows []).status = Status.pass
        ∧ (check_audience_observation critRows []).score = some 0)
    ∧ ((check_display_path []).status = Status.pass
        ∧ (check_display_path []).score = some 0) := by
  refine ⟨⟨?_, ?_⟩, fun negRows => ⟨?_, ?_⟩, ⟨?_, ?_⟩, fun critRows => ⟨?_, ?_⟩,
    ?_, ?_⟩ <;>
    simp [check_spend_split, check_cross_keyword_negation, check_limited_by_budget,
      check_audience_observation, check_display_path, cknTotalChecks, cknOutcomes,
      cknCampaignIds, audScore, audIssues, dpScore, dpIssues]

/-! ### Claim C2 -/

/-- C2 is right and the code is wrong: check_keywords_without_impressions
reports score = 100 - percentage, a higher-is-better value.  On a fully
compliant input (every keyword has impressions, zero non-compliant
entities, empty details) the returned score is 100, which under the
codebase's documented affected-percentage convention would mean completely
non-compliant — alongside a pass status. -/
theorem C2_code_bug :
    (check_keywords_without_impressions exKwImpr).status = Status.pass
    ∧ (check_keywords_without_impressions exKwImpr).score = some 100
    ∧ (check_keywords_without_impressions exKwImpr).details = []
    ∧ (∀ rows : List KwImprRow,
        (check_keywords_without_impressions rows).score
          = some (100 - kwiPercentage rows)) := by
  refine ⟨?_, ?_, ?_, fun rows => rfl⟩ <;>
    norm_num [check_keywords_without_impressions, kwiPercentage, kwiWithout, exKwImpr]

/-! ### Claim C3 -/

/-- C3 confirmed for the rendered category summary: its overall score is
max(0, 100 - mean of the non-None scores); prepending a result whose score
is None leaves the overall score unchanged (such results are excluded from
the averaging denominator); and with no non-None score at all the summary
reports 100. -/
theorem C3_overall_score :
    (∀ results : List CheckResult, eligibleScores results ≠ [] →
      (render_summary_stats results).overallPositiveScore
        = max 0 (100 - (eligibleScores results).sum
            / ((eligibleScores results).length : Rat)))
    ∧ (∀ results : List CheckResult, ∀ r : CheckResult, r.score = none →
      (render_summary_stats (r :: results)).overallPositiveScore
        = (render_summary_stats results).overallPositiveScore)
    ∧ (∀ results : List CheckResult, eligibleScores results = [] →
      (render_summary_stats results).overallPositiveScore = 100) := by
  refine ⟨fun results h => ?_, fun results r h => ?_, fun results h => ?_⟩
  · have hlen : 0 < (eligibleScores results).length := List.length_pos.mpr h
    simp [render_summary_stats, avgAffected, hlen]
  · simp [render_summary_stats, avgAffected, eligibleScores, List.filterMap_cons, h]
  · have h0 : (eligibleScores results).length = 0 := by simp [h]
    simp [render_summary_stats, avgAffected, h0]

/-- C3 witness: a single scored result (affected 30) yields overall 70,
and a single score-less info result yields the neutral default 100. -/
theorem C3_overall_score_witness :
    (render_summary_stats
      [{ status := .pass, score := some 30, message := "" }]).overallPositiveScore = 70
    ∧ (render_summary_stats
      [{ status := .info, score := none, message := "" }]).overallPositiveScore = 100 := by
  constructor
  · have h := C3_overall_score.1
      [{ status := .pass, score := some 30, message := "" }]
      (by simp [eligibleScores])
    rw [h]
    have : eligibleScores [{ status := .pass, score := some 30, message := "" }]
        = [(30 : Rat)] := by simp [eligibleScores]
    rw [this]
    norm_num
  · exact C3_overall_score.2.2 _ (by simp [eligibleScores])

/-! ### Claim C10 -/

/-- C10 confirmed: in calculate_overall_health_score a result with score
None is not always excluded — for pass / warning / fail / error statuses
the status weight times 100 is substituted into the averaged total (so a
score-less passing check contributes 100), only info results contribute
nothing, and a result set in which nothing contributes (for example all
info) yields an overall score of 0. -/
theorem C10_health_score_substitution :
    (∀ r : CheckResult, r.score = none →
        (r.status = Status.pass → healthContribution r = some 100)
        ∧ (r.status = Status.warning → healthContribution r = some 70)
        ∧ (r.status = Status.fail → healthContribution r = some 0)
        ∧ (r.status = Status.error → healthContribution r = some 0)
        ∧ (r.status = Status.info → healthContribution r = none))
    ∧ (∀ rs : List CheckResult, ∀ r : CheckResult,
        r.score = none → r.status = Status.pass →
        calculate_overall_health_score (r :: rs)
          = (100 + (rs.filterMap healthContribution).sum)
            / (((rs.filterMap healthContribution).length : Rat) + 1))
    ∧ (∀ rs : List CheckResult, (∀ r ∈ rs, r.score = none ∧ r.status = Status.info) →
        calculate_overall_health_score rs = 0) := by
  refine ⟨fun r h => ?_, fun rs r h hs => ?_, fun rs h => ?_⟩
  · refine ⟨fun hs => ?_, fun hs => ?_, fun hs => ?_, fun hs => ?_, fun hs => ?_⟩ <;>
      simp [healthContribution, statusWeight, h, hs,
        show (7 : Rat)/10 * 100 = 70 by norm_num]
  · have hc : healthContribution r = some 100 := by
      simp [healthContribution, statusWeight, h, hs]
    simp [calculate_overall_health_score, List.filterMap_cons, hc]
  · have hnil : rs.filterMap healthContribution = [] := by
      rw [List.filterMap_eq_nil_iff]
      intro r hr
      have := h r hr
      simp [healthContribution, statusWeight, this.1, this.2]
    simp [calculate_overall_health_score, hnil]

/-- C10 witness: one score-less passing check alone yields an overall
score of 100, and a single score-less info result yields 0. -/
theorem C10_health_score_substitution_witness :
    calculate_overall_health_score
      [{ status := .pass, score := none, message := "" }] = 100
    ∧ calculate_overall_health_score
      [{ status := .info, score := none, message := "" }] = 0 := by
  constructor
  · have h := C10_health_score_substitution.2.1 []
      { status := .pass, score := none, message := "" } rfl rfl
    rw [h]
    norm_num
  · exact C10_health_score_substitution.2.2 _ (by simp)

/-! ### Claim C4 -/

/-- C4 counterexample: the claim says every category runner catches check
exceptions and never raises — but run_all_universal_checks has no handler,
so when its first check raises the whole category run raises instead of
producing an id-to-result map. -/
theorem C4_counterexample :
    run_all_universal_checks (Except.error "boom")
      (Except.ok { status := .pass, score := some 0, message := "ok" })
      (Except.ok { status := .pass, score := some 0, message := "ok" })
    = Except.error "boom" := rfl

/-- C4 amended: the search runner catches a raised exception per check,
recording status error, score None and message "Error: {e}" for that id,
and always outputs the complete catalog of check ids in order; the
universal runner however does not catch — an exception raised by any of
its checks propagates out of the category run. -/
theorem C4_runner_error_handling :
    (∀ outcome : Nat → Except String CheckResult,
      (run_all_search_checks outcome).map Prod.fst = SEARCH_CHECK_IDS)
    ∧ (∀ outcome : Nat → Except String CheckResult, ∀ num : Nat, ∀ e : String,
      num ∈ SEARCH_CHECK_IDS → outcome num = Except.error e →
      ((num, { status := Status.error, score := none, message := "Error: " ++ e,
               name := some (CHECK_DESCRIPTIONS num) }) : Nat × CheckResult)
        ∈ run_all_search_checks outcome)
    ∧ (∀ e : String, ∀ o12 o13 : Except String CheckResult,
      run_all_universal_checks (Except.error e) o12 o13 = Except.error e) := by
  refine ⟨fun outcome => ?_, fun outcome num e hmem herr => ?_, fun e o12 o13 => rfl⟩
  · have hfst : ∀ num : Nat, (searchEntry outcome num).1 = num := by
      intro num
      unfold searchEntry
      cases outcome num <;> rfl
    rw [run_all_search_checks, List.map_map]
    have hcomp : Prod.fst ∘ searchEntry outcome = fun num => num := by
      funext num
      exact hfst num
    rw [hcomp]
    simp
  · have hentry : searchEntry outcome num
        = (num, { status := Status.error, score := none, message := "Error: " ++ e,
                  name := some (CHECK_DESCRIPTIONS num) }) := by
      unfold searchEntry
      rw [herr]
    rw [← hentry]
    exact List.mem_map_of_mem (searchEntry outcome) hmem

/-- C4 witness: with check 6 raising "boom" and every other check
returning an ok result, the search run still lists all ten catalog ids and
contains the stamped error entry for id 6; a universal run whose first
check raises "boom" raises "boom". -/
theorem C4_runner_error_handling_witness :
    (run_all_search_checks (fun n =>
        if n = 6 then Except.error "boom"
        else Except.ok { status := .pass, score := some 0, message := "ok" })).map
      Prod.fst = SEARCH_CHECK_IDS
    ∧ ((6, { status := Status.error, score := none, message := "Error: " ++ "boom",
             name := some (CHECK_DESCRIPTIONS 6) }) : Nat × CheckResult)
        ∈ run_all_search_checks (fun n =>
          if n = 6 then Except.error "boom"
          else Except.ok { status := .pass, score := some 0, message := "ok" })
    ∧ run_all_universal_checks (Except.error "boom")
        (Except.ok { status := .pass, score := some 0, message := "ok" })
        (Except.ok { status := .pass, score := some 0, message := "ok" })
      = Except.error "boom" := by
  refine ⟨C4_runner_error_handling.1 _, ?_, C4_runner_error_handling.2.2 "boom" _ _⟩
  exact C4_runner_error_handling.2.1 _ 6 "boom" (by decide) (by simp)

/-! ### Claim C5 -/

/-- C5 counterexample: the claim says a non-info / non-error,
non-distribution check with 0 < score can only be warning (up to the
warn-cutoff) or fail (above it) — but check_cross_keyword_negation, on an
account where exactly 1 of 20 pairwise negation checks fails, returns
score 5 with status pass. -/
theorem C5_counterexample :
    (check_cross_keyword_negation exPos exNeg).status = Status.pass
    ∧ (check_cross_keyword_negation exPos exNeg).score = some 5 := by
  have h20 : cknTotalChecks exPos exNeg = 20 := by decide
  have h19 : cknPassedChecks exPos exNeg = 19 := by decide
  constructor <;>
    norm_num [check_cross_keyword_negation, cknScore, h20, h19]

/-- C5 amended: the zero-pass banding (score 0 passes, positive scores up
to the warn-cutoff warn, larger scores fail) does hold for
check_audience_observation (cutoff 20); but check_limited_by_budget has no
warning band at all (pass strictly below the 10% threshold, else fail);
check_cross_keyword_negation and check_ad_copy_quality also pass at
positive scores up to their pass-cutoffs (10 and 30); and
check_keywords_without_impressions bands on the raw zero-impression
percentage while reporting the inverted score 100 - percentage. -/
theorem C5_banding :
    (∀ cr : List CriterionRow, ∀ cs : List CampaignRow,
        (audScore cr cs = 0 → (check_audience_observation cr cs).status = Status.pass)
        ∧ (0 < audScore cr cs → audScore cr cs ≤ 20 →
            (check_audience_observation cr cs).status = Status.warning)
        ∧ (20 < audScore cr cs → (check_audience_observation cr cs).status = Status.fail))
    ∧ (∀ rows : List BudgetRow, rows ≠ [] →
        (check_limited_by_budget rows).status ≠ Status.warning
        ∧ ((check_limited_by_budget rows).status = Status.pass ↔
            limitedPct rows < LIMITED_BUDGET_THRESHOLD))
    ∧ (∀ p : List PosKwRow, ∀ n : List NegKwRow, cknTotalChecks p n ≠ 0 →
        0 < cknScore p n → cknScore p n ≤ 10 →
        (check_cross_keyword_negation p n).status = Status.pass)
    ∧ (∀ rows : List AdStrengthRow, 0 < acqScore rows → acqScore rows ≤ 30 →
        (check_ad_copy_quality rows).status = Status.pass)
    ∧ (∀ rows : List KwImprRow,
        (check_keywords_without_impressions rows).score
          = some (100 - kwiPercentage rows)
        ∧ (kwiPercentage rows < 20 →
            (check_keywords_without_impressions rows).status = Status.pass)) := by
  refine ⟨fun cr cs => ⟨fun h0 => ?_, fun hpos hle => ?_, fun hgt => ?_⟩,
    fun rows h => ?_, fun p n h0 hpos hle => ?_, fun rows hpos hle => ?_,
    fun rows => ⟨rfl, fun hlt => ?_⟩⟩
  · simp [check_audience_observation, h0]
  · simp [check_audience_observation, hpos.ne', hle]
  · have hne : audScore cr cs ≠ 0 :=
      (lt_trans (by norm_num : (0 : Rat) < 20) hgt).ne'
    simp [check_audience_observation, hne, not_le.mpr hgt]
  · constructor
    · by_cases hc : limitedPct rows < LIMITED_BUDGET_THRESHOLD <;>
        simp [check_limited_by_budget, h, limitedByBudgetMain, hc]
    · by_cases hc : limitedPct rows < LIMITED_BUDGET_THRESHOLD <;>
        simp [check_limited_by_budget, h, limitedByBudgetMain, hc]
  · simp [check_cross_keyword_negation, h0, hle]
  · simp [check_ad_copy_quality, hle]
  · simp [check_keywords_without_impressions, hlt]

/-- C5 witness: concrete runs hitting each banding case — an account with
one audience-less campaign fails the audience check at score 100; a single
limited campaign makes check 3 fail (never warning); the 1-of-20 negation
account passes check 6 at score 5; one POOR ad among ten passes check 7 at
score 10; a single keyword with impressions passes check 11. -/
theorem C5_banding_witness :
    (check_audience_observation [] [⟨1, "C"⟩]).status = Status.fail
    ∧ (check_limited_by_budget exBudget).status ≠ Status.warning
    ∧ (check_cross_keyword_negation exPos exNeg).status = Status.pass
    ∧ (check_ad_copy_quality
        (⟨"C", "A", 0, some "POOR"⟩
          :: (List.range 9).map (fun i => ⟨"C", "A", i + 1, some "EXCELLENT"⟩))).status
      = Status.pass
    ∧ (check_keywords_without_impressions exKwImpr).status = Status.pass := by
  have hlen : (audIssues [] [⟨1, "C"⟩]).length = 1 := by decide
  have haud : audScore [] [⟨1, "C"⟩] = 100 := by
    norm_num [audScore, hlen]
  have h20 : cknTotalChecks exPos exNeg = 20 := by decide
  have h19 : cknPassedChecks exPos exNeg = 19 := by decide
  have hs : cknScore exPos exNeg = 5 := by norm_num [cknScore, h20, h19]
  have hpoor : acqPoorAverage
      (⟨"C", "A", 0, some "POOR"⟩
        :: (List.range 9).map (fun i => ⟨"C", "A", i + 1, some "EXCELLENT"⟩)) = 1 := by
    decide
  have hlen10 : (⟨"C", "A", 0, some "POOR"⟩
      :: (List.range 9).map
        (fun i => (⟨"C", "A", i + 1, some "EXCELLENT"⟩ : AdStrengthRow))).length = 10 := by
    decide
  have hacq : acqScore
      (⟨"C", "A", 0, some "POOR"⟩
        :: (List.range 9).map (fun i => ⟨"C", "A", i + 1, some "EXCELLENT"⟩)) = 10 := by
    norm_num [acqScore, hpoor, hlen10]
  have hkwi : kwiPercentage exKwImpr = 0 := by
    norm_num [kwiPercentage, kwiWithout, exKwImpr]
  refine ⟨(C5_banding.1 [] [⟨1, "C"⟩]).2.2 (by rw [haud]; norm_num),
    ((C5_banding.2.1 exBudget (by decide)).1),
    C5_banding.2.2.1 exPos exNeg (by rw [h20]; decide)
      (by rw [hs]; norm_num) (by rw [hs]; norm_num),
    C5_banding.2.2.2.1 _ (by rw [hacq]; norm_num) (by rw [hacq]; norm_num),
    (C5_banding.2.2.2.2 exKwImpr).2 (by rw [hkwi]; norm_num)⟩

/-! ### Claim C6 -/

/-- The shopping tolerance test of check 26 is always false, because the
simplified implementation books all spend under OTHER. -/
theorem pmaxShoppingOk_false : ¬ pmaxShoppingOk := by
  rw [pmaxShoppingOk, PMAX_SPEND_SPLIT_SHOPPING, PMAX_SPEND_TOLERANCE, zero_sub,
    abs_neg, abs_of_nonneg (by norm_num)]
  norm_num

/-- C6 counterexample: check_pmax_spend_split returns status warning on
any account with positive spend (the claim says these checks never return
warning), and check_spend_split passes an account whose exact share is
exactly 70% while the phrase share (0%) is outside its tolerance band (the
claim says pass requires all tracked categories within tolerance). -/
theorem C6_counterexample :
    (check_pmax_spend_split exPmax).status = Status.warning
    ∧ (check_spend_split exSplitMix).status = Status.pass
    ∧ ¬ ssPhraseOk exSplitMix := by
  refine ⟨?_, ?_, ?_⟩
  · have h1 : pmaxTotalSpend exPmax = 1 := by
      norm_num [pmaxTotalSpend, exPmax]
    have hne : exPmax.isEmpty = false := by decide
    have hno : ¬ (pmaxShoppingOk ∧ pmaxVideoOk) := fun hc => pmaxShoppingOk_false hc.1
    simp [check_pmax_spend_split, hne, h1, pmaxSpendSplitMain, hno]
  · norm_num [check_spend_split, exSplitMix, spendSplitMain, ssExactOk, exactPct,
      spendByType, totalSpend, spendOf, SPEND_SPLIT_THRESHOLDS_EXACT,
      SPEND_SPLIT_TOLERANCE, show (("BROAD" == "EXACT") = false) by decide]
  · rw [ssPhraseOk, SPEND_SPLIT_THRESHOLDS_PHRASE, SPEND_SPLIT_TOLERANCE]
    have hp : phrasePct exSplitMix = 0 := by
      norm_num [phrasePct, spendByType, totalSpend, exSplitMix, spendOf,
        show (("EXACT" == "PHRASE") = false) by decide,
        show (("BROAD" == "PHRASE") = false) by decide]
    rw [hp, zero_sub, abs_neg, abs_of_nonneg (by norm_num)]
    norm_num

/-- C6 amended: on nonzero spend, the search spend-split check passes iff
the exact share alone clears threshold minus tolerance (phrase and broad
tolerances only pick the marks in the details table) and otherwise fails,
never warning; the PMax spend-split check compares shopping and video
shares against their tolerances, but since its simplified loop books all
spend under OTHER the shopping test always fails and the check always
returns warning (its non-pass branch) — it never returns fail. -/
theorem C6_distribution_status :
    (∀ rows : List KeywordSpendRow, rows ≠ [] → totalSpend rows ≠ 0 →
      ((check_spend_split rows).status = Status.pass ↔ ssExactOk rows)
      ∧ (check_spend_split rows).status ≠ Status.warning)
    ∧ (∀ rows : List PmaxSpendRow, rows ≠ [] → pmaxTotalSpend rows ≠ 0 →
      (check_pmax_spend_split rows).status = Status.warning
      ∧ (check_pmax_spend_split rows).status ≠ Status.fail) := by
  constructor
  · intro rows h h0
    constructor
    · by_cases hok : ssExactOk rows <;>
        simp [check_spend_split, h, h0, spendSplitMain, hok]
    · by_cases hok : ssExactOk rows <;>
        simp [check_spend_split, h, h0, spendSplitMain, hok]
  · intro rows h h0
    have hno : ¬ (pmaxShoppingOk ∧ pmaxVideoOk) := fun hc => pmaxShoppingOk_false hc.1
    constructor <;>
      simp [check_pmax_spend_split, h, h0, pmaxSpendSplitMain, hno]

/-- C6 witness: the 50/50 account never gets a warning from the search
split check, and one PMax campaign with spend 1 gets warning, not fail. -/
theorem C6_distribution_status_witness :
    (check_spend_split rows50).status ≠ Status.warning
    ∧ (check_pmax_spend_split exPmax).status = Status.warning
    ∧ (check_pmax_spend_split exPmax).status ≠ Status.fail := by
  have hts : totalSpend rows50 = 1 := by
    norm_num [totalSpend, rows50, spendOf]
  have htp : pmaxTotalSpend exPmax = 1 := by
    norm_num [pmaxTotalSpend, exPmax]
  refine ⟨(C6_distribution_status.1 rows50 (by decide) (by rw [hts]; norm_num)).2,
    (C6_distribution_status.2 exPmax (by decide) (by rw [htp]; norm_num)).1,
    (C6_distribution_status.2 exPmax (by decide) (by rw [htp]; norm_num)).2⟩

/-! ### Claim C7 -/

/-- C7 counterexample: the claim says every count-based check has exactly
as many detail rows as the non-compliant numerator of its score — but
check_ad_copy_quality on a single EXCELLENT ad has numerator 0 (score 0)
while its details table has 1 row (the per-strength summary). -/
theorem C7_counterexample :
    (check_ad_copy_quality exAcq).score = some 0
    ∧ acqPoorAverage exAcq = 0
    ∧ (check_ad_copy_quality exAcq).details.length = 1 := by
  have hp : acqPoorAverage exAcq = 0 := by decide
  have hlen : exAcq.length = 1 := by decide
  have hd : (distinctStrengths exAcq).length = 1 := by decide
  refine ⟨?_, hp, ?_⟩
  · norm_num [check_ad_copy_quality, acqScore, hp, hlen]
  · simp [check_ad_copy_quality, acqSummary, hd]

/-- C7 amended: the detail-row count equals the score numerator for the
plain count-based checks (audience observation, display path), and the
cross-negation check's missing-negation list also has exactly
total - passed rows — but its published details are truncated to the
first 100 rows, and the ad-copy-quality check publishes a per-strength
summary whose row count is the number of distinct strength values, not
the non-compliant numerator. -/
theorem C7_details_counts :
    (∀ cr : List CriterionRow, ∀ cs : List CampaignRow,
        (check_audience_observation cr cs).details.length
          = (cs.filter (fun c => !(missingAudiences cr c.id).isEmpty)).length)
    ∧ (∀ rows : List PathRow, (check_display_path rows).details.length
        = (rows.filter (fun r => !pathCompliant r)).length)
    ∧ (∀ p : List PosKwRow, ∀ n : List NegKwRow,
        (cknMissing p n).length = cknTotalChecks p n - cknPassedChecks p n
        ∧ (check_cross_keyword_negation p n).details.length
          = min (cknMissing p n).length 100)
    ∧ (∀ rows : List AdStrengthRow, (check_ad_copy_quality rows).details.length
        = (distinctStrengths rows).length) := by
  refine ⟨fun cr cs => ?_, fun rows => ?_, fun p n => ⟨?_, ?_⟩, fun rows => ?_⟩
  · simpa [check_audience_observation] using audIssues_length cr cs
  · simp [check_display_path, dpIssues]
  · rw [cknMissing, List.length_map, cknTotalChecks, cknPassedChecks]
    exact length_filter_not_eq_sub (fun o => o.1) (cknOutcomes p n)
  · by_cases h : cknTotalChecks p n = 0
    · have houtcomes : cknOutcomes p n = [] := List.length_eq_zero.mp h
      simp [check_cross_keyword_negation, h, cknMissing, houtcomes]
    · simp [check_cross_keyword_negation, h, List.length_take, Nat.min_comm]
  · simp [check_ad_copy_quality, acqSummary]

/-! ### Claim C8 -/

/-- C8 confirmed: on any input with positive total spend the spend-split
score is min(2 * |exact share percent - 70|, 100); in particular a 50%
exact share scores 40 and, being below threshold - tolerance = 0.65,
fails. -/
theorem C8_spend_split_score :
    ∀ rows : List KeywordSpendRow, 0 < totalSpend rows →
      (check_spend_split rows).score = some (min (|exactPct rows * 100 - 70| * 2) 100)
      ∧ (exactPct rows = 1/2 →
          (check_spend_split rows).score = some 40
          ∧ (check_spend_split rows).status = Status.fail) := by
  intro rows h
  have hne : rows ≠ [] := by
    intro hnil
    rw [hnil] at h
    simp [totalSpend] at h
  have h0 : totalSpend rows ≠ 0 := ne_of_gt h
  have hmain : check_spend_split rows = spendSplitMain rows := by
    simp [check_spend_split, hne, h0]
  refine ⟨by rw [hmain]; rfl, fun hhalf => ⟨?_, ?_⟩⟩
  · rw [hmain]
    show some (ssScore rows) = some 40
    have habs : |exactPct rows * 100 - 70| = 20 := by
      rw [hhalf, show (1 : Rat)/2 * 100 - 70 = -20 by norm_num, abs_neg,
        abs_of_nonneg (by norm_num)]
    rw [ssScore, habs]
    norm_num
  · rw [hmain]
    have hnok : ¬ ssExactOk rows := by
      rw [ssExactOk, hhalf, SPEND_SPLIT_THRESHOLDS_EXACT, SPEND_SPLIT_TOLERANCE]
      norm_num
    simp [spendSplitMain, hnok]

/-- C8 witness: two keywords splitting a spend of 1 equally between exact
and phrase give exact share 1/2, score 40 and status fail. -/
theorem C8_spend_split_score_witness :
    0 < totalSpend rows50
    ∧ exactPct rows50 = 1/2
    ∧ (check_spend_split rows50).score = some 40
    ∧ (check_spend_split rows50).status = Status.fail := by
  have hts : totalSpend rows50 = 1 := by
    norm_num [totalSpend, rows50, spendOf]
  have hex : exactPct rows50 = 1/2 := by
    norm_num [exactPct, spendByType, totalSpend, rows50, spendOf,
      show (("PHRASE" == "EXACT") = false) by decide]
  have hpos : 0 < totalSpend rows50 := by
    rw [hts]
    norm_num
  exact ⟨hpos, hex, ((C8_spend_split_score rows50 hpos).2 hex).1,
    ((C8_spend_split_score rows50 hpos).2 hex).2⟩

/-! ### Claim C9 -/

/-- The brand segment of the example account holds exactly the brand
keyword row. -/
theorem qsData_brand_exQs :
    qsData exQs "brand" = [⟨"Camp", "Brand AG", "kw1", some (19/2), 10⟩] := by
  simp [qsData, exQs, List.filter_cons,
    show qsKept ⟨"Camp", "Brand AG", "kw1", some (19/2), 10⟩ = true from by simp [qsKept],
    show qsKept ⟨"Camp", "Generic", "kw2", some 5, 4⟩ = true from by simp [qsKept],
    show qsSegment ⟨"Camp", "Brand AG", "kw1", some (19/2), 10⟩ = "brand" from by decide,
    show qsSegment ⟨"Camp", "Generic", "kw2", some 5, 4⟩ = "non_brand" from by decide,
    show (("non_brand" == "brand") = false) from by decide]

/-- The non-brand segment of the example account holds exactly the generic
keyword row. -/
theorem qsData_nonbrand_exQs :
    qsData exQs "non_brand" = [⟨"Camp", "Generic", "kw2", some 5, 4⟩] := by
  simp [qsData, exQs, List.filter_cons,
    show qsKept ⟨"Camp", "Brand AG", "kw1", some (19/2), 10⟩ = true from by simp [qsKept],
    show qsKept ⟨"Camp", "Generic", "kw2", some 5, 4⟩ = true from by simp [qsKept],
    show qsSegment ⟨"Camp", "Brand AG", "kw1", some (19/2), 10⟩ = "brand" from by decide,
    show qsSegment ⟨"Camp", "Generic", "kw2", some 5, 4⟩ = "non_brand" from by decide,
    show (("brand" == "non_brand") = false) from by decide]

/-- The competitor segment of the example account is empty. -/
theorem qsData_competitor_exQs : qsData exQs "competitor" = [] := by
  simp [qsData, exQs, List.filter_cons,
    show qsSegment ⟨"Camp", "Brand AG", "kw1", some (19/2), 10⟩ = "brand" from by decide,
    show qsSegment ⟨"Camp", "Generic", "kw2", some 5, 4⟩ = "non_brand" from by decide,
    show (("brand" == "competitor") = false) from by decide,
    show (("non_brand" == "competitor") = false) from by decide]

/-- Brand weighted average of the example account: 9.5. -/
theorem segWqs_brand_exQs : segWqs exQs "brand" = some (19/2) := by
  rw [segWqs, qsData_brand_exQs]
  simp [calcWeightedAvg]

/-- Non-brand weighted average of the example account: 5. -/
theorem segWqs_nonbrand_exQs : segWqs exQs "non_brand" = some 5 := by
  rw [segWqs, qsData_nonbrand_exQs]
  simp [calcWeightedAvg]

/-- No competitor weighted average exists for the example account. -/
theorem segWqs_competitor_exQs : segWqs exQs "competitor" = none := by
  rw [segWqs, qsData_competitor_exQs]
  simp [calcWeightedAvg]

/-- The example account's inverted segment contributions: 0 for brand
(9.5 clears the floor of 9) and 400/7 for non-brand (gap 2 below the floor
of 7, scaled); the data-less competitor segment contributes nothing. -/
theorem qsInvScores_exQs : qsInvScores exQs = [0, 400/7] := by
  rw [qsInvScores, segWqs_brand_exQs, segWqs_nonbrand_exQs, segWqs_competitor_exQs]
  simp [qTruthy, invScore, QUALITY_SCORE_THRESHOLDS_brand,
    QUALITY_SCORE_THRESHOLDS_non_brand]
  constructor
  · have h1 : (0 : Rat) ⊔ (9 - 19/2) = 0 := max_eq_left (by norm_num)
    rw [h1, zero_div, zero_mul, zero_mul]
    exact min_eq_left (by norm_num)
  · have h2 : (0 : Rat) ⊔ (7 - 5) = 2 := by
      rw [show (7 : Rat) - 5 = 2 by norm_num]
      exact max_eq_right (by norm_num)
    rw [h2, show (2 : Rat)/7*100*2 = 400/7 by norm_num]
    exact min_eq_left (by norm_num)

/-- The example account's message, with the data-less competitor segment
rendered as "N/A". -/
theorem qsMessage_exQs :
    qsMessage exQs = "Brand: 9.50, Non-Brand: 5.00, Competitor: N/A" := by
  rw [qsMessage, segWqs_brand_exQs, segWqs_nonbrand_exQs, segWqs_competitor_exQs]
  have f1 : wqsStr (some (19/2 : Rat)) = "9.50" := by
    rw [wqsStr, fmtFixed,
      show decRound 2 (19/2 : Rat) = 950 from by simp only [decRound]; norm_num]
    decide
  have f2 : wqsStr (some (5 : Rat)) = "5.00" := by
    rw [wqsStr, fmtFixed,
      show decRound 2 (5 : Rat) = 500 from by simp only [decRound]; norm_num]
    decide
  rw [f1, f2]
  decide

/-- C9 counterexample: the competitor segment of the example account has
no qualifying data, yet it is not omitted from the message — the message
still names the Competitor segment, rendering it as "N/A". -/
theorem C9_counterexample :
    segWqs exQs "competitor" = none
    ∧ (check_weighted_quality_score exQs).message
        = "Brand: 9.50, Non-Brand: 5.00, Competitor: N/A"
    ∧ containsStr (check_weighted_quality_score exQs).message "Competitor" = true := by
  refine ⟨segWqs_competitor_exQs, qsMessage_exQs, ?_⟩
  rw [show (check_weighted_quality_score exQs).message = qsMessage exQs from rfl,
    qsMessage_exQs]
  decide

/-- C9 amended: the numeric behaviour is as claimed — per-segment
impression-weighted averages against floors 9 / 7 / 5, contributions
min(max(0, floor - avg)/floor * 100 * 2, 100) from the present segments
only, score their mean (here (0 + 400/7)/2 = 200/7, i.e. 28.57 to two
decimals), fail iff some present segment misses its floor — but a
segment with no qualifying data is omitted only from the score average
and the details table, while the message still shows it as "N/A". -/
theorem C9_weighted_quality :
    (∀ rows : List QsRow,
      ((check_weighted_quality_score rows).status = Status.fail ↔
        (qsBelow (segWqs rows "brand") QUALITY_SCORE_THRESHOLDS_brand = true
         ∨ qsBelow (segWqs rows "non_brand") QUALITY_SCORE_THRESHOLDS_non_brand = true
         ∨ qsBelow (segWqs rows "competitor") QUALITY_SCORE_THRESHOLDS_competitor
             = true)))
    ∧ segWqs exQs "brand" = some (19/2)
    ∧ segWqs exQs "non_brand" = some 5
    ∧ segWqs exQs "competitor" = none
    ∧ qsInvScores exQs = [0, 400/7]
    ∧ (check_weighted_quality_score exQs).score = some (200/7)
    ∧ (check_weighted_quality_score exQs).status = Status.fail
    ∧ (check_weighted_quality_score exQs).details.length = 2 := by
  have hiff : ∀ rows : List QsRow,
      ((check_weighted_quality_score rows).status = Status.fail ↔
        (qsBelow (segWqs rows "brand") QUALITY_SCORE_THRESHOLDS_brand = true
         ∨ qsBelow (segWqs rows "non_brand") QUALITY_SCORE_THRESHOLDS_non_brand = true
         ∨ qsBelow (segWqs rows "competitor") QUALITY_SCORE_THRESHOLDS_competitor
             = true)) := by
    intro rows
    cases hb : qsBelow (segWqs rows "brand") QUALITY_SCORE_THRESHOLDS_brand <;>
      cases hn : qsBelow (segWqs rows "non_brand") QUALITY_SCORE_THRESHOLDS_non_brand <;>
      cases hc : qsBelow (segWqs rows "competitor") QUALITY_SCORE_THRESHOLDS_competitor <;>
      simp [check_weighted_quality_score, qsIssuesCount, hb, hn, hc]
  have hscore : (check_weighted_quality_score exQs).score = some (200/7) := by
    show some (qsOverallScore exQs) = some (200/7)
    rw [qsOverallScore, qsInvScores_exQs]
    norm_num
  have hfail : (check_weighted_quality_score exQs).status = Status.fail := by
    rw [hiff exQs, segWqs_nonbrand_exQs]
    right
    left
    simp [qsBelow, QUALITY_SCORE_THRESHOLDS_non_brand]
    norm_num
  have hdet : (check_weighted_quality_score exQs).details.length = 2 := by
    show (qsResults exQs).length = 2
    rw [qsResults, segWqs_brand_exQs, segWqs_nonbrand_exQs, segWqs_competitor_exQs]
    simp
  exact ⟨hiff, segWqs_brand_exQs, segWqs_nonbrand_exQs, segWqs_competitor_exQs,
    qsInvScores_exQs, hscore, hfail, hdet⟩

end HealthCard
